import Mathlib

/-!
Verification of the Metaville "v01d" player-sync backend.

The repository is a set of near-duplicate Express/Postgres servers.  The
definitions below are shallow embeddings of the JavaScript helpers and of the
SQL upsert statements that the claims refer to:

* a small model of JavaScript values (`JSVal`) with the coercions the code
  uses (`Number(...)`, truthiness, `??`, `||`, property access, spread);
* `mergePlayer` / `normalizeResources` from the JSON-file variant
  (src/unnamed/part_001);
* `pickTelegramId`, `normalizeResources` (six-key variant) and the
  `ON CONFLICT` upsert from src/unnamed/part_003 (first server);
* the `sqlByTg` upsert of src/unnamed/part_000 and src/unnamed/part_006
  (GREATEST on level/exp, `stats || EXCLUDED.stats`);
* the `UPDATE ... COALESCE` reconciliation of src/API/server.js (first server);
* `verifyTelegramInitData` and the signature gate of src/API/server.js
  (third server) and src/unnamed/part_000 (second server).

Modelling conventions: machine numbers are `Int` together with explicit
`nan` / `inf` / `ninf` constructors (no floats appear in any claim); the
crypto primitives (`createHmac`/`createHash` chain) are an opaque function
parameter, since they are library calls and the claims only concern how their
result is used; `JSON.parse` of the init-data `user` parameter is modelled as
an already-parsed optional value carried next to the raw parameter list.
-/

namespace Metaville

/-- JavaScript numbers as used by this codebase: the claims only exercise
integral values, `NaN` and the infinities, so fractional values are not
modelled. -/
inductive JSNum where
  | nan
  | inf
  | ninf
  | int (i : Int)
deriving DecidableEq, Repr

/-- JavaScript values: `undefined`, `null`, numbers, strings, booleans,
objects (association lists of fields in insertion order) and arrays. -/
inductive JSVal where
  | undefined
  | jsNull
  | num (n : JSNum)
  | str (s : String)
  | boolean (b : Bool)
  | obj (fields : List (String × JSVal))
  | arr (elems : List JSVal)
deriving Repr

/-- Field lists of a JavaScript object, in insertion order. -/
abbrev JFields := List (String × JSVal)

/-- Truthiness of a JavaScript number: `0` and `NaN` are falsy. -/
def numTruthy : JSNum → Bool
  | .nan => false
  | .int i => i ≠ 0
  | .inf => true
  | .ninf => true

/-- JavaScript truthiness. -/
def truthy : JSVal → Bool
  | .undefined => false
  | .jsNull => false
  | .num n => numTruthy n
  | .str s => s ≠ ""
  | .boolean b => b
  | .obj _ => true
  | .arr _ => true

/-- Number.isFinite. -/
def isFiniteNum : JSNum → Bool
  | .int _ => true
  | _ => false

/-- Number.isNaN. -/
def isNaNNum : JSNum → Bool
  | .nan => true
  | _ => false

/-- Whitespace trimming over the character list, modelling JavaScript's
`String.prototype.trim` and the trimming `Number(string)` performs. -/
def trimChars (cs : List Char) : List Char :=
  ((cs.dropWhile (·.isWhitespace)).reverse.dropWhile (·.isWhitespace)).reverse

/-- String-level trim built on `trimChars`. -/
def jsTrim (s : String) : String := ⟨trimChars s.data⟩

/-- Decimal digit-string parser used to model `Number(string)`. -/
def parseDecDigits (cs : List Char) : Option Nat :=
  if cs ≠ [] ∧ cs.all (·.isDigit) then
    some (cs.foldl (fun acc c => acc * 10 + (c.toNat - 48)) 0)
  else
    none

/-- Model of JavaScript `Number(s)` on strings.  The code only ever feeds it
telegram ids and resource amounts; decimal integer literals (optionally
signed), the empty string and the `Infinity` spellings are modelled, every
other string maps to `NaN` (fractional and exponent literals would be
non-integral and are not exercised by any claim). -/
def jsStringToNumber (s : String) : JSNum :=
  let t := jsTrim s
  if t = "" then .int 0
  else if t = "Infinity" ∨ t = "+Infinity" then .inf
  else if t = "-Infinity" then .ninf
  else
    match t.data with
    | '-' :: rest =>
      match parseDecDigits rest with
      | some n => .int (-(n : Int))
      | none => .nan
    | '+' :: rest =>
      match parseDecDigits rest with
      | some n => .int (n : Int)
      | none => .nan
    | ds =>
      match parseDecDigits ds with
      | some n => .int (n : Int)
      | none => .nan

/-- Model of JavaScript `Number(v)`.  Plain objects coerce to `NaN`; for
arrays only the empty and one-element cases are distinguished (the JS
`toPrimitive` join), deeper nesting is not exercised anywhere. -/
def toNumber : JSVal → JSNum
  | .undefined => .nan
  | .jsNull => .int 0
  | .boolean b => .int (if b then 1 else 0)
  | .num n => n
  | .str s => jsStringToNumber s
  | .obj _ => .nan
  | .arr [] => .int 0
  | .arr [.undefined] => .int 0
  | .arr [.jsNull] => .int 0
  | .arr [.num n] => n
  | .arr [.str s] => jsStringToNumber s
  | .arr _ => .nan

/-- Property access `v?.k` (and `v.k` on objects): `undefined` on missing
fields and on non-objects. -/
def getField : JSVal → String → JSVal
  | .obj f, k => (f.lookup k).getD .undefined
  | _, _ => .undefined

/-- The `a ?? b` operator. -/
def jsNullish : JSVal → JSVal → JSVal
  | .undefined, b => b
  | .jsNull, b => b
  | a, _ => a

/-- The `a || b` operator on values. -/
def jsOr (a b : JSVal) : JSVal :=
  if truthy a then a else b

/-- The `n || d` idiom on numbers (`Number(x) || 1`). -/
def jsOrNum (n d : JSNum) : JSNum :=
  if numTruthy n then n else d

/-- Object spread `{ ...a, ...b }`: keys of `a` in order (with `b`'s value
whenever `b` also has the key), then the keys only `b` has. -/
def spreadFields (a b : JFields) : JFields :=
  a.map (fun kv => (kv.1, match b.lookup kv.1 with | some v => v | none => kv.2))
    ++ b.filter (fun kv => (a.lookup kv.1).isNone)

/-- Postgres `jsonb || jsonb` on two objects: key union, right side wins.
Postgres re-sorts keys internally; the theorems only observe the result
through `lookup`, for which this insertion-ordered model is equivalent. -/
def concatFields (p q : JFields) : JFields :=
  p.filter (fun kv => (q.lookup kv.1).isNone) ++ q

/-- Postgres `p || q` on jsonb values.  Non-object operands never reach the
`stats` columns in the claims; they are modelled as yielding the right side. -/
def jsonbConcat : JSVal → JSVal → JSVal
  | .obj p, .obj q => .obj (concatFields p q)
  | _, b => b

/-- Lookup inside a jsonb object value. -/
def jlook (v : JSVal) (k : String) : Option JSVal :=
  match v with
  | .obj f => f.lookup k
  | _ => none

/-! ### src/unnamed/part_001 — the JSON-file server -/

/-- Keys of `ResourceDefaults` in declaration order (part_001). -/
def resourceKeys001 : List String :=
  ["oxygen", "energy", "mvc", "ice", "bio", "parts", "polymers", "rare"]

/-- The frozen `ResourceDefaults` object of part_001 (all zero). -/
def ResourceDefaults001 : JFields :=
  resourceKeys001.map (fun k => (k, .num (.int 0)))

/-- In-place assignment `out[k] = v` for a key already present in `out`. -/
def assignField (f : JFields) (k : String) (v : JSVal) : JFields :=
  f.map (fun kv => if kv.1 = k then (k, v) else kv)

/-- The per-key body of part_001's `normalizeResources` loop:
`out[k] = typeof v === "number" ? v : Number(v || 0)`, then non-finite
values become `0`, then negative values become `0`. -/
def clampResource (v : JSVal) : JSNum :=
  let n : JSNum :=
    match v with
    | .num m => m
    | _ => toNumber (jsOr v (.num (.int 0)))
  match n with
  | .int i => if i < 0 then .int 0 else .int i
  | _ => .int 0

/-- part_001 `normalizeResources`: spread defaults under the input, then
coerce every known key.  Unknown keys of the input survive the spread — they
are not dropped by this variant. -/
def normalizeResources001 (r : JSVal) : JFields :=
  let src : JFields :=
    match r with
    | .obj f => f
    | _ => []
  let out := spreadFields ResourceDefaults001 src
  resourceKeys001.foldl
    (fun acc k => assignField acc k (.num (clampResource ((acc.lookup k).getD .undefined))))
    out

/-- part_001 `mergePlayer(prev, incoming, tg)`.  `now` stands for
`new Date().toISOString()` at the time of the call. -/
def mergePlayer (prev incoming : JSVal) (tg : Int) (now : String) : JSVal :=
  let prevRes := normalizeResources001 (getField prev "resources")
  let incRes := normalizeResources001 (getField incoming "resources")
  .obj
    [ ("telegram_id", .num (.int tg)),
      ("callsign", jsNullish (getField incoming "callsign")
        (jsNullish (getField prev "callsign") (.str "Citizen"))),
      ("level",
        match getField incoming "level" with
        | .num n => .num n
        | _ => jsNullish (getField prev "level") (.num (.int 1))),
      ("exp",
        match getField incoming "exp" with
        | .num n => .num n
        | _ => jsNullish (getField prev "exp") (.num (.int 0))),
      ("resources", .obj (spreadFields prevRes incRes)),
      ("progress", jsNullish (getField incoming "progress")
        (jsNullish (getField prev "progress") (.obj []))),
      ("stats", jsNullish (getField incoming "stats")
        (jsNullish (getField prev "stats") (.obj []))),
      ("created_at", jsOr (getField prev "created_at") (.str now)),
      ("last_login", .str now),
      ("updated_at", .str now) ]

/-! ### src/unnamed/part_003 (first server) — normalize-then-upsert variant -/

/-- Keys of part_003's `DEFAULT_RESOURCES` in declaration order. -/
def defaultKeys003 : List String := ["bio", "mvc", "parts", "energy", "oxygen", "ice"]

/-- The per-key body of part_003's `normalizeResources` loop:
`Number(src[k])` when finite, otherwise the default `0`. -/
def normResVal003 (src : JSVal) (k : String) : JSNum :=
  if isFiniteNum (toNumber (getField src k)) then toNumber (getField src k) else .int 0

/-- part_003 `normalizeResources`: start from a copy of the defaults and,
when the input is an object, overwrite each known key with `Number(src[k])`
whenever that is finite.  Unknown keys are dropped, missing or non-finite
known keys keep the default; negative finite values pass through unchanged. -/
def normalizeResources003 (src : JSVal) : List (String × JSNum) :=
  match src with
  | .obj _ | .arr _ => defaultKeys003.map (fun k => (k, normResVal003 src k))
  | _ => defaultKeys003.map (fun k => (k, .int 0))

/-- part_003 `normalizePlainObject`: keep plain objects, otherwise the
fallback. -/
def normalizePlainObject (x fallback : JSVal) : JSVal :=
  match x with
  | .obj f => .obj f
  | _ => fallback

/-- The `x-telegram-init-data` header, already split by `URLSearchParams`.
`userJson` models the result of `JSON.parse` on the `user` parameter
(`none` when parsing throws); JSON parsing itself is a language builtin and
is not re-implemented. -/
structure InitHeader where
  params : List (String × String)
  userJson : Option JSVal

/-- The parts of an Express request that the sync handlers read. -/
structure Request where
  body : JSVal
  queryTg : Option String
  initHeader : Option InitHeader

/-- part_003 / part_005 `pickTelegramId`: body field, then `?tg=` query
parameter, then the embedded `user.id` of the init-data header. -/
def pickTelegramId (req : Request) : Option JSNum :=
  if truthy (getField req.body "telegramId")
      && !isNaNNum (toNumber (getField req.body "telegramId")) then
    some (toNumber (getField req.body "telegramId"))
  else if (match req.queryTg with | some s => s != "" | none => false)
      && !isNaNNum (toNumber (.str ((req.queryTg).getD ""))) then
    some (toNumber (.str ((req.queryTg).getD "")))
  else
    match req.initHeader with
    | some h =>
      match h.params.lookup "user" with
      | some us =>
        if us != "" then
          match h.userJson with
          | some u =>
            if !isNaNNum (toNumber (getField u "id")) then
              some (toNumber (getField u "id"))
            else none
          | none => none
        else none
      | none => none
    | none => none

/-- The body-source test of the identity resolver, as the code performs it. -/
def bodySource (req : Request) : Option JSNum :=
  if truthy (getField req.body "telegramId")
      && !isNaNNum (toNumber (getField req.body "telegramId")) then
    some (toNumber (getField req.body "telegramId"))
  else none

/-- The query-string source test of the identity resolver. -/
def querySource (req : Request) : Option JSNum :=
  match req.queryTg with
  | some s => if s != "" && !isNaNNum (toNumber (.str s)) then some (toNumber (.str s)) else none
  | none => none

/-- The init-data-header source test of the identity resolver. -/
def headerSource (req : Request) : Option JSNum :=
  match req.initHeader with
  | some h =>
    match h.params.lookup "user" with
    | some us =>
      if us != "" then
        match h.userJson with
        | some u =>
          if !isNaNNum (toNumber (getField u "id")) then
            some (toNumber (getField u "id"))
          else none
        | none => none
      else none
    | none => none
  | none => none

/-- HTTP outcome of a sync handler. -/
inductive Resp (α : Type) where
  | ok (player : α)
  | badRequest (err : String)
  | serverError

/-- A row of part_003's `players` table (columns the sync statement touches;
timestamps are not modelled, no claim observes them). -/
structure Row003 where
  callsign : String
  level : Int
  exp : Int
  resources : List (String × JSNum)
  progress : JSVal
  stats : JSVal

/-- The normalized handler inputs of part_003's sync endpoint. -/
structure Args003 where
  callsign : String
  level : JSNum
  exp : JSNum
  resources : List (String × JSNum)
  progress : JSVal
  stats : JSVal

/-- part_003's input normalization: `callsign` trimmed with `"Citizen"`
fallback, `Number(level) || 1`, `Number(exp) || 0`, resources through
`normalizeResources`, progress and stats through `normalizePlainObject`. -/
def args003 (body : JSVal) : Args003 :=
  { callsign :=
      match getField body "callsign" with
      | .str s => if jsTrim s != "" then jsTrim s else "Citizen"
      | _ => "Citizen",
    level := jsOrNum (toNumber (getField body "level")) (.int 1),
    exp := jsOrNum (toNumber (getField body "exp")) (.int 0),
    resources := normalizeResources003 (getField body "resources"),
    progress := normalizePlainObject (getField body "progress") (.obj []),
    stats := normalizePlainObject (getField body "stats") (.obj []) }

/-- part_003's `INSERT ... ON CONFLICT (telegram_id) DO UPDATE`:
`level`/`exp` via `GREATEST`, `resources`/`progress` replaced by the
excluded (incoming) values, `stats` merged with `players.stats ||
EXCLUDED.stats`.  The `callsign` parameter is always a non-null string, so
`COALESCE(EXCLUDED.callsign, players.callsign)` is the incoming value. -/
def upsert003 (prev : Option Row003) (cs : String) (lv ex : Int)
    (res : List (String × JSNum)) (prog stats : JSVal) : Row003 :=
  match prev with
  | none => ⟨cs, lv, ex, res, prog, stats⟩
  | some p => ⟨cs, max p.level lv, max p.exp ex, res, prog, jsonbConcat p.stats stats⟩

/-- The `players` table of part_003, keyed by `telegram_id`. -/
abbrev Store003 := List (Int × Row003)

/-- Replace-or-append write into the part_003 table. -/
def storeSet003 (s : Store003) (k : Int) (r : Row003) : Store003 :=
  if (s.lookup k).isSome then s.map (fun kv => if kv.1 = k then (k, r) else kv)
  else s ++ [(k, r)]

/-- part_003's `POST /api/player/sync` handler: resolve the id (`!telegramId`
rejects both `null` and `0`), normalize the body, run the upsert.  A resolved
id or level/exp that is not an integer cannot be stored in the `BIGINT` and
`INTEGER` columns and surfaces as the generic server error. -/
def endpoint003 (req : Request) (store : Store003) : Resp Row003 × Store003 :=
  match pickTelegramId req with
  | none => (.badRequest "telegramId_required", store)
  | some n =>
    if numTruthy n then
      let a := args003 req.body
      match n, a.level, a.exp with
      | .int tg, .int lv, .int ex =>
        let row := upsert003 (store.lookup tg) a.callsign lv ex a.resources a.progress a.stats
        (.ok row, storeSet003 store tg row)
      | _, _, _ => (.serverError, store)
    else (.badRequest "telegramId_required", store)

/-! ### src/unnamed/part_000 / part_006 — the `sqlByTg` / `sqlBySol` upserts -/

/-- A row of the `players` table used by part_000 and part_006 (first
servers); timestamps are not part of these statements. -/
structure Row000 where
  telegram_id : Option Int
  sol_address : Option String
  callsign : Option String
  level : Int
  exp : Int
  resources : JSVal
  progress : JSVal
  stats : JSVal

/-- The SQL parameters `$1..$8` of `sqlByTg`/`sqlBySol`, after the pg driver
has serialized the JavaScript arguments.  `level` and `exp` are the
handler-supplied numbers (integral in every claim; an explicit JSON `null`
for them is not modelled). -/
structure SqlArgs where
  telegramId : Option Int
  solAddress : Option String
  callsign : Option String
  level : Int
  exp : Int
  resources : JSVal
  progress : JSVal
  stats : JSVal

/-- `sqlByTg` (part_000 and part_006): insert, or on a `telegram_id`
conflict `COALESCE` the sol address and callsign, take `GREATEST` of
level/exp, replace resources and progress with the excluded values, and
merge stats with `players.stats || EXCLUDED.stats`. -/
def upsertByTg (prev : Option Row000) (a : SqlArgs) : Row000 :=
  match prev with
  | none =>
    ⟨a.telegramId, a.solAddress, a.callsign, a.level, a.exp, a.resources, a.progress, a.stats⟩
  | some p =>
    ⟨p.telegram_id,
     a.solAddress <|> p.sol_address,
     a.callsign <|> p.callsign,
     max p.level a.level,
     max p.exp a.exp,
     a.resources,
     a.progress,
     jsonbConcat p.stats a.stats⟩

/-- `sqlBySol` (part_000 and part_006): like `sqlByTg` but keyed and
conflicting on `sol_address`, and the insert carries no telegram id. -/
def upsertBySol (prev : Option Row000) (a : SqlArgs) : Row000 :=
  match prev with
  | none =>
    ⟨none, a.solAddress, a.callsign, a.level, a.exp, a.resources, a.progress, a.stats⟩
  | some p =>
    ⟨p.telegram_id,
     p.sol_address,
     a.callsign <|> p.callsign,
     max p.level a.level,
     max p.exp a.exp,
     a.resources,
     a.progress,
     jsonbConcat p.stats a.stats⟩

/-- The destructured request body of part_000's sync handler:
`const { telegramId, solAddress, callsign, level = 1, exp = 0,
resources = {}, progress = {}, stats = {} } = req.body || {}` (defaults
apply only to `undefined`). -/
structure Args000 where
  telegramId : JSVal
  solAddress : JSVal
  callsign : JSVal
  level : JSVal
  exp : JSVal
  resources : JSVal
  progress : JSVal
  stats : JSVal

/-- Destructuring default: replaces `undefined` only. -/
def destrDefault (v d : JSVal) : JSVal :=
  match v with
  | .undefined => d
  | v => v

/-- The destructuring step of part_000's handler. -/
def destructure000 (body : JSVal) : Args000 :=
  let b := if truthy body then body else .obj []
  { telegramId := getField b "telegramId",
    solAddress := getField b "solAddress",
    callsign := getField b "callsign",
    level := destrDefault (getField b "level") (.num (.int 1)),
    exp := destrDefault (getField b "exp") (.num (.int 0)),
    resources := destrDefault (getField b "resources") (.obj []),
    progress := destrDefault (getField b "progress") (.obj []),
    stats := destrDefault (getField b "stats") (.obj []) }

/-- Serialization of a JavaScript value into an SQL integer parameter
(`BIGINT`/`INTEGER` columns): integers directly, numeric strings via the
text cast; anything else fails the statement. -/
def jsToSqlInt (v : JSVal) : Option Int :=
  match v with
  | .num (.int i) => some i
  | .str s =>
    match jsStringToNumber s with
    | .int i => some i
    | _ => none
  | _ => none

/-- Serialization into a nullable `TEXT` parameter. -/
def jsToSqlTextOpt (v : JSVal) : Option (Option String) :=
  match v with
  | .jsNull => some none
  | .undefined => some none
  | .str s => some (some s)
  | _ => none

/-- The `players` table of part_000/part_006, with its two unique keys. -/
abbrev Store000 := List Row000

/-- Unique-key lookup by `telegram_id`. -/
def findByTg (s : Store000) (tg : Int) : Option Row000 :=
  s.find? (fun r => r.telegram_id == some tg)

/-- Replace-or-append write keyed by `telegram_id`. -/
def putByTg (s : Store000) (tg : Int) (row : Row000) : Store000 :=
  if (findByTg s tg).isSome then
    s.map (fun r => if r.telegram_id == some tg then row else r)
  else s ++ [row]

/-- Unique-key lookup by `sol_address`. -/
def findBySol (s : Store000) (sa : String) : Option Row000 :=
  s.find? (fun r => r.sol_address == some sa)

/-- Replace-or-append write keyed by `sol_address`. -/
def putBySol (s : Store000) (sa : String) (row : Row000) : Store000 :=
  if (findBySol s sa).isSome then
    s.map (fun r => if r.sol_address == some sa then row else r)
  else s ++ [row]

/-- part_000's `POST /api/player/sync`: reject when neither `telegramId` nor
`solAddress` is truthy, otherwise run `sqlByTg` (when `telegramId` is
truthy) or `sqlBySol`.  Parameter values the pg driver cannot serialize for
the column types surface as the generic server error. -/
def endpoint000 (body : JSVal) (store : Store000) : Resp Row000 × Store000 :=
  let a := destructure000 body
  if !truthy a.telegramId && !truthy a.solAddress then
    (.badRequest "Need telegramId or solAddress", store)
  else
    match jsToSqlTextOpt (jsNullish a.solAddress .jsNull),
          jsToSqlTextOpt (jsNullish a.callsign .jsNull),
          jsToSqlInt a.level, jsToSqlInt a.exp with
    | some sol, some cs, some lv, some ex =>
      if truthy a.telegramId then
        match jsToSqlInt (jsNullish a.telegramId .jsNull) with
        | some tg =>
          let sa : SqlArgs := ⟨some tg, sol, cs, lv, ex, a.resources, a.progress, a.stats⟩
          let row := upsertByTg (findByTg store tg) sa
          (.ok row, putByTg store tg row)
        | none => (.serverError, store)
      else
        match sol with
        | some saddr =>
          let sa : SqlArgs := ⟨none, sol, cs, lv, ex, a.resources, a.progress, a.stats⟩
          let row := upsertBySol (findBySol store saddr) sa
          (.ok row, putBySol store saddr row)
        | none => (.serverError, store)
    | _, _, _, _ => (.serverError, store)

/-! ### src/API/server.js (first server) — the COALESCE reconciliation -/

/-- The nullable handler inputs of src/API/server.js's sync endpoint
(`b.level ?? null` and friends), serialized for the UPDATE parameters. -/
structure ArgsSrv where
  solAddress : Option String
  callsign : Option String
  level : Option Int
  exp : Option Int
  resources : Option JSVal
  progress : Option JSVal
  stats : Option JSVal

/-- The `UPDATE ... WHERE telegram_id = $1` of src/API/server.js lines
224-240: every field is `COALESCE(incoming, current)` — including `level`
and `exp` — and `stats` is merged with jsonb `||` (the stored stats column
is non-null by schema default, so its `COALESCE(stats, '{}')` guard is the
stored value). -/
def updateSrvByTg (p : Row000) (a : ArgsSrv) : Row000 :=
  { telegram_id := p.telegram_id,
    sol_address := a.solAddress <|> p.sol_address,
    callsign := a.callsign <|> p.callsign,
    level := a.level.getD p.level,
    exp := a.exp.getD p.exp,
    resources := a.resources.getD p.resources,
    progress := a.progress.getD p.progress,
    stats := jsonbConcat p.stats (a.stats.getD (.obj [])) }

/-! ### src/API/server.js (third server) / part_000 (second server) —
init-data signature verification -/

/-- Substring test, modelling the `/t\.me|telegram\.org/i` regex fragments. -/
def strContains (h n : String) : Bool := (h.splitOn n).length > 1

/-- The canonical data-check string: every `key=value` pair except `hash`,
sorted, joined with newlines. -/
def dataCheckString (params : List (String × String)) : String :=
  let arr := (params.filter (fun kv => kv.1 != "hash")).map (fun kv => kv.1 ++ "=" ++ kv.2)
  String.intercalate "\n" (arr.mergeSort (fun a b => decide (a ≤ b)))

/-- `verifyTelegramInitData`: trust everything when no bot token is
configured or no header was sent; otherwise require a `hash` parameter equal
to the HMAC of the data-check string.  `hmacSig` stands for the
`createHmac('sha256', secretKey(token))...digest('hex')` chain of the
`crypto` library, applied to the token and the data-check string. -/
def verifyTelegramInitData (hmacSig : String → String → String) (botToken : String)
    (initData : Option (List (String × String))) : Bool :=
  if botToken = "" then true
  else
    match initData with
    | none => true
    | some params =>
      match params.lookup "hash" with
      | some h => if h = "" then false else hmacSig botToken (dataCheckString params) == h
      | none => false

/-- The signature gate in front of src/API/server.js's sync handler:
requests whose `Origin` matches the Telegram regex or which carry an
`X-Telegram-Init` header must pass `verifyTelegramInitData`, all others
proceed.  `initData` is the header after `URLSearchParams`; an absent or
empty header is `none`.  `true` means the request proceeds, `false` means
the 401 `bad_telegram_signature` response. -/
def syncGateSrv (hmacSig : String → String → String) (botToken origin : String)
    (initData : Option (List (String × String))) : Bool :=
  if (strContains origin.toLower "t.me" || strContains origin.toLower "telegram.org")
      || initData.isSome then
    verifyTelegramInitData hmacSig botToken initData
  else true

/-! ### Concrete example inputs used by witnesses -/

/-- An existing stored row used to exercise the idempotence theorem. -/
def exampleRow : Row000 :=
  ⟨some 1, none, some "Neo", 5, 7, .obj [], .obj [], .obj [("s", .num (.int 1))]⟩

/-- A sync payload whose level/exp do not exceed `exampleRow`'s. -/
def exampleArgs : SqlArgs :=
  ⟨some 1, none, some "Neo", 3, 2, .obj [("oxygen", .num (.int 4))], .obj [],
    .obj [("t", .num (.int 2))]⟩

/-! ### Helper lemmas about association lists -/

/-- Looking a key up in a list that contains an entry for it succeeds. -/
theorem lookup_isSome_of_mem {q : JFields} {k : String} {v : JSVal}
    (h : (k, v) ∈ q) : (q.lookup k).isSome := by
  induction q with
  | nil => cases h
  | cons a t ih =>
    by_cases hk : (k == a.1) = true
    · simp [List.lookup, hk]
    · have hk' : (k == a.1) = false := by simpa using hk
      rcases List.mem_cons.mp h with h1 | h1
      · rw [← h1] at hk'; simp at hk'
      · simp [List.lookup, hk', ih h1]

/-- jsonb `||`: a key present on the right keeps the right-hand value. -/
theorem lookup_concat_right (p q : JFields) (k : String) (v : JSVal)
    (h : q.lookup k = some v) : (concatFields p q).lookup k = some v := by
  unfold concatFields
  induction p with
  | nil => simpa using h
  | cons a t ih =>
    by_cases hp : ((q.lookup a.1).isNone : Bool) = true
    · have hk : (k == a.1) = false := by
        by_contra hcon
        rw [Bool.not_eq_false] at hcon
        rw [← eq_of_beq hcon, h] at hp
        simp at hp
      simpa [List.filter_cons, hp, List.lookup, hk] using ih
    · have hp' : ((q.lookup a.1).isNone : Bool) = false := by simpa using hp
      simpa [List.filter_cons, hp'] using ih

/-- jsonb `||`: a key absent on the right keeps the left-hand value. -/
theorem lookup_concat_left (p q : JFields) (k : String)
    (h : q.lookup k = none) : (concatFields p q).lookup k = p.lookup k := by
  unfold concatFields
  induction p with
  | nil => simpa using h
  | cons a t ih =>
    by_cases ha : (k == a.1) = true
    · have hp : ((q.lookup a.1).isNone : Bool) = true := by
        rw [← eq_of_beq ha, h]; rfl
      simp [List.filter_cons, hp, List.lookup, ha]
    · have ha' : (k == a.1) = false := by simpa using ha
      by_cases hp : ((q.lookup a.1).isNone : Bool) = true
      · simpa [List.filter_cons, hp, List.lookup, ha'] using ih
      · have hp' : ((q.lookup a.1).isNone : Bool) = false := by simpa using hp
        simpa [List.filter_cons, hp', List.lookup, ha'] using ih

/-- Filtering a list by absence of its own keys leaves nothing. -/
theorem filter_self_lookup_none (q : JFields) :
    (q.filter fun kv => (q.lookup kv.1).isNone) = [] := by
  rw [List.filter_eq_nil_iff]
  rintro ⟨k, v⟩ hkv hcon
  have h := lookup_isSome_of_mem hkv
  have hcon' : q.lookup k = none := Option.isNone_iff_eq_none.mp hcon
  rw [hcon'] at h
  cases h

/-- Merging an object with itself changes nothing. -/
theorem concatFields_self (q : JFields) : concatFields q q = q := by
  unfold concatFields
  rw [filter_self_lookup_none, List.nil_append]

/-- Merging the same right-hand object twice is the same as merging once. -/
theorem concatFields_right_idem (p q : JFields) :
    concatFields (concatFields p q) q = concatFields p q := by
  unfold concatFields
  rw [List.filter_append, filter_self_lookup_none, List.append_nil, List.filter_filter]
  congr 1
  apply List.filter_congr
  intro kv _
  exact Bool.and_self _

/-- Merging the same right-hand jsonb value twice is the same as merging
once, for arbitrary stored values. -/
theorem jsonbConcat_right_idem (x y : JSVal) :
    jsonbConcat (jsonbConcat x y) y = jsonbConcat x y := by
  cases x <;> cases y <;>
    simp [jsonbConcat, concatFields_right_idem, concatFields_self]

/-- Lookup in an association list built by mapping over a key list: present
keys map to their generated value. -/
theorem lookup_map_of_mem {β : Type} (ks : List String) (g : String → β) (k : String)
    (h : k ∈ ks) : ((ks.map fun k => (k, g k)).lookup k) = some (g k) := by
  induction ks with
  | nil => cases h
  | cons a t ih =>
    by_cases ha : (k == a) = true
    · rw [eq_of_beq ha]
      simp [List.lookup]
    · have ha' : (k == a) = false := by simpa using ha
      rcases List.mem_cons.mp h with h1 | h1
      · rw [h1] at ha'; simp at ha'
      · simp [List.lookup, ha', ih h1]

/-- Lookup in an association list built by mapping over a key list: absent
keys are not found. -/
theorem lookup_map_of_not_mem {β : Type} (ks : List String) (g : String → β) (k : String)
    (h : k ∉ ks) : ((ks.map fun k => (k, g k)).lookup k) = none := by
  induction ks with
  | nil => rfl
  | cons a t ih =>
    have ha : (k == a) = false := by
      by_contra hcon
      rw [Bool.not_eq_false] at hcon
      exact h (eq_of_beq hcon ▸ List.mem_cons_self a t)
    have step : (List.lookup k ((a, g a) :: (t.map fun k => (k, g k))))
        = List.lookup k (t.map fun k => (k, g k)) := by
      simp [List.lookup, ha]
    rw [List.map_cons, step]
    exact ih fun hm => h (List.mem_cons_of_mem a hm)

/-- Known resource keys always come out of part_003's normalization with the
value computed by `normResVal003` (for non-object inputs that value is the
default, definitionally). -/
theorem normalizeResources003_lookup (src : JSVal) (k : String)
    (h : k ∈ defaultKeys003) :
    (normalizeResources003 src).lookup k = some (normResVal003 src k) := by
  cases src <;> exact lookup_map_of_mem _ _ _ h

/-! ### Claim theorems -/

/-- C1 (amended): for the GREATEST-based upsert of part_000/part_006
(`sqlByTg`, also the shape of the part_003..006 `ON CONFLICT` updates), a
sync against an existing row never decreases `level` or `exp`, and both are
resolved as max(current, incoming). -/
theorem C1_level_exp_monotone (p : Row000) (a : SqlArgs) :
    p.level ≤ (upsertByTg (some p) a).level
    ∧ p.exp ≤ (upsertByTg (some p) a).exp
    ∧ (upsertByTg (some p) a).level = max p.level a.level
    ∧ (upsertByTg (some p) a).exp = max p.exp a.exp :=
  ⟨le_max_left _ _, le_max_left _ _, rfl, rfl⟩

/-- C1 counterexample: part_001's `mergePlayer` (cited by the claim) takes
the incoming value whenever it is a number, so a sync lowers a stored level
from 5 to 2 — stored level after the sync is not ≥ its value before,
refuting the claim as stated. -/
theorem C1_counterexample :
    jlook (.obj [("level", .num (.int 5)), ("exp", .num (.int 10))]) "level"
        = some (.num (.int 5))
    ∧ jlook (mergePlayer (.obj [("level", .num (.int 5)), ("exp", .num (.int 10))])
        (.obj [("level", .num (.int 2)), ("exp", .num (.int 3))]) 1
        "2025-01-01T00:00:00Z") "level"
        = some (.num (.int 2))
    ∧ ¬ ((5 : Int) ≤ 2) :=
  ⟨rfl, rfl, by decide⟩

/-- C2 (amended): part_003's sync pipeline normalizes the incoming resources
— unknown names dropped, missing known names defaulted, non-finite values
coerced to the default, while negative finite values pass through — and the
normalized snapshot then replaces the stored resources wholesale; syncing
resources with oxygen 5 over stored oxygen 10 / energy 20 yields oxygen 5
and energy reset to 0. -/
theorem C2_normalize_then_replace :
    (∀ (src : JSVal) (k : String), k ∉ defaultKeys003 →
      (normalizeResources003 src).lookup k = none)
    ∧ (∀ (f : JFields) (k : String), k ∈ defaultKeys003 → f.lookup k = none →
      (normalizeResources003 (.obj f)).lookup k = some (.int 0))
    ∧ (∀ (src : JSVal) (k : String), k ∈ defaultKeys003 →
      isFiniteNum (toNumber (getField src k)) = false →
      (normalizeResources003 src).lookup k = some (.int 0))
    ∧ (∀ (prev : Row003) (cs : String) (lv ex : Int)
        (res : List (String × JSNum)) (prog st : JSVal),
      (upsert003 (some prev) cs lv ex res prog st).resources = res)
    ∧ ((upsert003 (some ⟨"Citizen", 1, 0,
          [("oxygen", .int 10), ("energy", .int 20)], .obj [], .obj []⟩)
        "Citizen" 1 0 (normalizeResources003 (.obj [("oxygen", .num (.int 5))]))
        (.obj []) (.obj [])).resources.lookup "oxygen" = some (.int 5)
      ∧ (upsert003 (some ⟨"Citizen", 1, 0,
          [("oxygen", .int 10), ("energy", .int 20)], .obj [], .obj []⟩)
        "Citizen" 1 0 (normalizeResources003 (.obj [("oxygen", .num (.int 5))]))
        (.obj []) (.obj [])).resources.lookup "energy" = some (.int 0)) := by
  refine ⟨?_, ?_, ?_, ?_, rfl, rfl⟩
  · intro src k h
    cases src <;> exact lookup_map_of_not_mem _ _ _ h
  · intro f k hk hnone
    rw [normalizeResources003_lookup _ _ hk]
    simp [normResVal003, getField, hnone, toNumber, isFiniteNum]
  · intro src k hk hfin
    rw [normalizeResources003_lookup _ _ hk]
    simp [normResVal003, hfin]
  · intro prev cs lv ex res prog st
    rfl

/-- Witness for C2: the unknown key junk is dropped and the missing known
key energy is defaulted on concrete inputs, by the amended theorem. -/
theorem C2_witness :
    (normalizeResources003 (.obj [("oxygen", .num (.int 5)),
        ("junk", .num (.int 9))])).lookup "junk" = none
    ∧ (normalizeResources003 (.obj [("oxygen", .num (.int 5))])).lookup "energy"
        = some (.int 0) :=
  ⟨C2_normalize_then_replace.1 _ "junk" (by decide),
   C2_normalize_then_replace.2.1 [("oxygen", .num (.int 5))] "energy" (by decide) rfl⟩

/-- C2 counterexample: part_003's `normalizeResources` keeps negative finite
values as-is — syncing oxygen -5 stores -5, so negative values are not
coerced as the claim states. -/
theorem C2_counterexample :
    (normalizeResources003 (.obj [("oxygen", .num (.int (-5)))])).lookup "oxygen"
        = some (.int (-5))
    ∧ ¬ ((0 : Int) ≤ -5) :=
  ⟨rfl, by decide⟩

/-- C3 (amended): in the SQL upsert variants the stored stats become the
shallow union of previous and incoming (`players.stats || EXCLUDED.stats`):
incoming keys win, previous-only keys survive, and syncing stats a=1 then
b=2 leaves both keys stored. -/
theorem C3_stats_shallow_union :
    (∀ (prev : Row000) (a : SqlArgs) (pf qf : JFields) (k : String) (v : JSVal),
      prev.stats = .obj pf → a.stats = .obj qf → qf.lookup k = some v →
      jlook ((upsertByTg (some prev) a).stats) k = some v)
    ∧ (∀ (prev : Row000) (a : SqlArgs) (pf qf : JFields) (k : String),
      prev.stats = .obj pf → a.stats = .obj qf → qf.lookup k = none →
      jlook ((upsertByTg (some prev) a).stats) k = pf.lookup k)
    ∧ jlook ((upsertByTg (some (upsertByTg
        (some (⟨some 1, none, none, 1, 0, .obj [], .obj [], .obj []⟩ : Row000))
        ⟨some 1, none, none, 1, 0, .obj [], .obj [], .obj [("a", .num (.int 1))]⟩))
        ⟨some 1, none, none, 1, 0, .obj [], .obj [], .obj [("b", .num (.int 2))]⟩).stats)
        "a" = some (.num (.int 1))
    ∧ jlook ((upsertByTg (some (upsertByTg
        (some (⟨some 1, none, none, 1, 0, .obj [], .obj [], .obj []⟩ : Row000))
        ⟨some 1, none, none, 1, 0, .obj [], .obj [], .obj [("a", .num (.int 1))]⟩))
        ⟨some 1, none, none, 1, 0, .obj [], .obj [], .obj [("b", .num (.int 2))]⟩).stats)
        "b" = some (.num (.int 2)) := by
  refine ⟨?_, ?_, rfl, rfl⟩
  · intro prev a pf qf k v hp ha hq
    simp only [upsertByTg, hp, ha, jsonbConcat, jlook]
    exact lookup_concat_right pf qf k v hq
  · intro prev a pf qf k hp ha hq
    simp only [upsertByTg, hp, ha, jsonbConcat, jlook]
    exact lookup_concat_left pf qf k hq

/-- Witness for C3: with stored stats s=1 and incoming stats s=9, t=2, the
incoming value wins on s; with incoming stats lacking s, the stored s=1
survives. -/
theorem C3_witness :
    jlook ((upsertByTg (some (⟨some 1, none, none, 1, 0, .obj [], .obj [],
        .obj [("s", .num (.int 1))]⟩ : Row000))
        ⟨some 1, none, none, 1, 0, .obj [], .obj [],
          .obj [("s", .num (.int 9)), ("t", .num (.int 2))]⟩).stats) "s"
        = some (.num (.int 9))
    ∧ jlook ((upsertByTg (some (⟨some 1, none, none, 1, 0, .obj [], .obj [],
        .obj [("s", .num (.int 1))]⟩ : Row000))
        ⟨some 1, none, none, 1, 0, .obj [], .obj [],
          .obj [("t", .num (.int 2))]⟩).stats) "s"
        = some (.num (.int 1)) :=
  ⟨C3_stats_shallow_union.1 _ _ [("s", .num (.int 1))]
      [("s", .num (.int 9)), ("t", .num (.int 2))] "s" _ rfl rfl rfl,
   C3_stats_shallow_union.2.1 _ _ [("s", .num (.int 1))]
      [("t", .num (.int 2))] "s" rfl rfl rfl⟩

/-- C3 counterexample: part_001's `mergePlayer` (cited by the claim)
replaces stats wholesale, so syncing stats a=1 then stats b=2 loses the key
a — the stored stats do not contain both keys, refuting the claim as
stated. -/
theorem C3_counterexample :
    jlook (getField (mergePlayer
        (mergePlayer .undefined (.obj [("stats", .obj [("a", .num (.int 1))])]) 1 "t1")
        (.obj [("stats", .obj [("b", .num (.int 2))])]) 1 "t2") "stats") "a" = none
    ∧ jlook (getField (mergePlayer
        (mergePlayer .undefined (.obj [("stats", .obj [("a", .num (.int 1))])]) 1 "t1")
        (.obj [("stats", .obj [("b", .num (.int 2))])]) 1 "t2") "stats") "b"
        = some (.num (.int 2)) :=
  ⟨rfl, rfl⟩

/-- C4: re-submitting the same payload to the `sqlByTg` upsert after a
profile's level and exp already reach the payload's values leaves the stored
row unchanged — sync is idempotent under re-submission.  (The hypotheses
mirror the claim; the GREATEST/replace/merge shape makes the result hold
even without them.) -/
theorem C4_sync_idempotent (p : Row000) (a : SqlArgs)
    (_hl : a.level ≤ p.level) (_he : a.exp ≤ p.exp) :
    upsertByTg (some (upsertByTg (some p) a)) a = upsertByTg (some p) a := by
  have hsol : (a.solAddress <|> (a.solAddress <|> p.sol_address))
      = (a.solAddress <|> p.sol_address) := by
    cases a.solAddress <;> rfl
  have hcs : (a.callsign <|> (a.callsign <|> p.callsign))
      = (a.callsign <|> p.callsign) := by
    cases a.callsign <;> rfl
  have hlv : max (max p.level a.level) a.level = max p.level a.level := by
    rw [max_assoc, max_self]
  have hex : max (max p.exp a.exp) a.exp = max p.exp a.exp := by
    rw [max_assoc, max_self]
  simp only [upsertByTg]
  rw [hsol, hcs, hlv, hex, jsonbConcat_right_idem]

/-- Witness for C4: the idempotence theorem applied to a concrete stored row
(level 5, exp 7) and payload (level 3, exp 2). -/
theorem C4_witness :
    upsertByTg (some (upsertByTg (some exampleRow) exampleArgs)) exampleArgs
      = upsertByTg (some exampleRow) exampleArgs :=
  C4_sync_idempotent exampleRow exampleArgs (by decide) (by decide)

/-- C5 (amended): in part_003's normalizing sync, a brand-new identity
synced with an empty payload gets level 1, exp 0, callsign Citizen and the
fully-populated all-zero default resource set; the part_000/part_006 upsert
instead stores a NULL callsign and the empty resources object. -/
theorem C5_first_sync_defaults (tg : Int) (store : Store003)
    (h0 : tg ≠ 0) (hnew : store.lookup tg = none) :
    endpoint003 ⟨.obj [("telegramId", .num (.int tg))], none, none⟩ store
      = (.ok ⟨"Citizen", 1, 0,
          [("bio", .int 0), ("mvc", .int 0), ("parts", .int 0),
           ("energy", .int 0), ("oxygen", .int 0), ("ice", .int 0)],
          .obj [], .obj []⟩,
         storeSet003 store tg ⟨"Citizen", 1, 0,
          [("bio", .int 0), ("mvc", .int 0), ("parts", .int 0),
           ("energy", .int 0), ("oxygen", .int 0), ("ice", .int 0)],
          .obj [], .obj []⟩) := by
  have hpick : pickTelegramId ⟨.obj [("telegramId", .num (.int tg))], none, none⟩
      = some (.int tg) := by
    simp [pickTelegramId, getField, truthy, numTruthy, toNumber, isNaNNum, h0]
  have ht : numTruthy (.int tg) = true := by
    simp [numTruthy, h0]
  have harg : args003 (.obj [("telegramId", .num (.int tg))])
      = ⟨"Citizen", .int 1, .int 0,
         [("bio", .int 0), ("mvc", .int 0), ("parts", .int 0),
          ("energy", .int 0), ("oxygen", .int 0), ("ice", .int 0)],
         .obj [], .obj []⟩ := rfl
  simp only [endpoint003, hpick, ht, if_true, harg, hnew]
  rfl

/-- Witness for C5: the first-sync theorem at identity 7 on the empty
store. -/
theorem C5_witness :
    endpoint003 ⟨.obj [("telegramId", .num (.int 7))], none, none⟩ []
      = (.ok ⟨"Citizen", 1, 0,
          [("bio", .int 0), ("mvc", .int 0), ("parts", .int 0),
           ("energy", .int 0), ("oxygen", .int 0), ("ice", .int 0)],
          .obj [], .obj []⟩,
         storeSet003 [] 7 ⟨"Citizen", 1, 0,
          [("bio", .int 0), ("mvc", .int 0), ("parts", .int 0),
           ("energy", .int 0), ("oxygen", .int 0), ("ice", .int 0)],
          .obj [], .obj []⟩) :=
  C5_first_sync_defaults 7 [] (by decide) rfl

/-- C5 counterexample: the part_000/part_006 sync (also cited by the claim)
inserts a brand-new identity with a NULL callsign — not Citizen — and with
the empty resources object rather than a fully-populated default set. -/
theorem C5_counterexample :
    (endpoint000 (.obj [("telegramId", .num (.int 7))]) []).2
      = [⟨some 7, none, none, 1, 0, .obj [], .obj [], .obj []⟩]
    ∧ (⟨some 7, none, none, 1, 0, .obj [], .obj [], .obj []⟩ : Row000).callsign
        ≠ some "Citizen"
    ∧ jlook (⟨some 7, none, none, 1, 0, .obj [], .obj [], .obj []⟩ : Row000).resources
        "oxygen" = none :=
  ⟨rfl, by decide, rfl⟩

/-- C6: a sync request in which no source yields an identity is answered
with the 400 identity-required error and the stored state is returned
untouched, in both the part_003 and the part_000 handlers. -/
theorem C6_identity_required :
    (∀ (req : Request) (store : Store003), pickTelegramId req = none →
      endpoint003 req store = (.badRequest "telegramId_required", store))
    ∧ (∀ (body : JSVal) (store : Store000),
      truthy (destructure000 body).telegramId = false →
      truthy (destructure000 body).solAddress = false →
      endpoint000 body store = (.badRequest "Need telegramId or solAddress", store)) := by
  constructor
  · intro req store h
    simp only [endpoint003, h]
  · intro body store h1 h2
    simp only [endpoint000, h1, h2]
    rfl

/-- Witness for C6: both handlers reject the fully-empty request and leave
the empty store unchanged. -/
theorem C6_witness :
    endpoint003 ⟨.obj [], none, none⟩ [] = (.badRequest "telegramId_required", [])
    ∧ endpoint000 (.obj []) [] = (.badRequest "Need telegramId or solAddress", []) :=
  ⟨C6_identity_required.1 _ _ rfl, C6_identity_required.2 _ _ rfl rfl⟩

/-- C7: the identity resolver equals the first-match chain over its three
sources in the fixed order body field, query parameter, init-data header —
whenever an earlier source yields a valid identity, the later sources are
ignored. -/
theorem C7_resolver_priority (req : Request) :
    pickTelegramId req = (bodySource req <|> (querySource req <|> headerSource req)) := by
  rcases req with ⟨body, qtg, hdr⟩
  simp only [pickTelegramId, bodySource, querySource, headerSource]
  by_cases hb : (truthy (getField body "telegramId")
      && !isNaNNum (toNumber (getField body "telegramId"))) = true
  · simp [hb]
  · have hb' : (truthy (getField body "telegramId")
        && !isNaNNum (toNumber (getField body "telegramId"))) = false := by
      simpa using hb
    cases qtg with
    | none => simp [hb']
    | some s =>
      by_cases hq : (s != "" && !isNaNNum (toNumber (.str s))) = true
      · simp [hb', hq]
      · have hq' : (s != "" && !isNaNNum (toNumber (.str s))) = false := by
          simpa using hq
        simp [hb', hq']

/-- C8 (amended): the src/API/server.js signature gate never lets a request
carrying an init-data header proceed when a bot token is configured and HMAC
verification over the sorted key=value join fails, and accepts everything
unverified when no token is configured.  (The pickTelegramId variants
instead trust the header identity without any verification — see the
counterexample.) -/
theorem C8_signature_gate :
    (∀ (hmacSig : String → String → String) (token origin : String)
        (ps : List (String × String)),
      token ≠ "" →
      verifyTelegramInitData hmacSig token (some ps) = false →
      syncGateSrv hmacSig token origin (some ps) = false)
    ∧ (∀ (hmacSig : String → String → String) (origin : String)
        (initData : Option (List (String × String))),
      syncGateSrv hmacSig "" origin initData = true) := by
  constructor
  · intro hmacSig token origin ps htok hver
    simp [syncGateSrv, hver]
  · intro hmacSig origin initData
    simp [syncGateSrv, verifyTelegramInitData]

/-- Witness for C8: a concrete header without a hash fails verification and
is rejected when a token is configured, and passes when none is. -/
theorem C8_witness :
    syncGateSrv (fun _ _ => "h") "tok" "" (some [("user", "x")]) = false
    ∧ syncGateSrv (fun _ _ => "h") "" "https://example.org" none = true :=
  ⟨C8_signature_gate.1 _ "tok" "" _ (by decide) rfl,
   C8_signature_gate.2 _ _ _⟩

/-- C8 counterexample: in the part_003/part_005/part_006 handlers the
identity embedded in the init-data header is trusted with no verification at
all — a header with no hash (which fails HMAC verification under any
configured secret) still resolves to identity 42 and the sync writes a row
for it, instead of being rejected. -/
theorem C8_counterexample :
    verifyTelegramInitData (fun _ _ => "h") "configured_secret"
        (some [("user", "ujson")]) = false
    ∧ pickTelegramId ⟨.obj [], none,
        some ⟨[("user", "ujson")], some (.obj [("id", .num (.int 42))])⟩⟩
        = some (.int 42)
    ∧ (endpoint003 ⟨.obj [], none,
        some ⟨[("user", "ujson")], some (.obj [("id", .num (.int 42))])⟩⟩ []).2
        = [(42, ⟨"Citizen", 1, 0,
            [("bio", .int 0), ("mvc", .int 0), ("parts", .int 0),
             ("energy", .int 0), ("oxygen", .int 0), ("ice", .int 0)],
            .obj [], .obj []⟩)] :=
  ⟨rfl, rfl, rfl⟩

/-- C9 (amended): for the GREATEST-based atomic upsert, running the two
syncs serially in either order leaves stored exp (and level) at the max of
the base and both submitted values — no increase is lost regardless of which
call commits last.  (The src/API/server.js COALESCE update instead lets the
last writer overwrite — see the counterexample.) -/
theorem C9_serialized_syncs_max (p : Row000) (a1 a2 : SqlArgs) :
    (upsertByTg (some (upsertByTg (some p) a1)) a2).exp
        = max p.exp (max a1.exp a2.exp)
    ∧ (upsertByTg (some (upsertByTg (some p) a2)) a1).exp
        = max p.exp (max a1.exp a2.exp)
    ∧ (upsertByTg (some (upsertByTg (some p) a1)) a2).level
        = max p.level (max a1.level a2.level)
    ∧ (upsertByTg (some (upsertByTg (some p) a2)) a1).level
        = max p.level (max a1.level a2.level) := by
  have h1 : ∀ x y z : Int, max (max x y) z = max x (max y z) := fun x y z => max_assoc x y z
  have h2 : ∀ x y z : Int, max (max x z) y = max x (max y z) := by
    intro x y z
    rw [max_assoc, max_comm z y]
  exact ⟨h1 _ _ _, h2 _ _ _, h1 _ _ _, h2 _ _ _⟩

/-- C9 counterexample: with the src/API/server.js COALESCE reconciliation
(also cited by the claim), a base row with exp 0 synced with exp 10 and then
exp 5 ends at exp 5 — the second writer silently overwrites the first, and
the final value is not the max of the two submissions. -/
theorem C9_counterexample :
    (updateSrvByTg (updateSrvByTg
        ⟨some 1, none, none, 1, 0, .obj [], .obj [], .obj []⟩
        ⟨none, none, none, some 10, none, none, none⟩)
        ⟨none, none, none, some 5, none, none, none⟩).exp = 5
    ∧ ((5 : Int) ≠ max 10 5) :=
  ⟨rfl, by decide⟩

/-- C10: a platform id of 0 (or an empty wallet address) is treated as no
identity: the part_003 handler rejects a resolved id 0 with the 400 error
and writes nothing, and the part_000 handler does the same for telegramId 0
with solAddress the empty string. -/
theorem C10_zero_identity :
    (∀ (req : Request) (store : Store003),
      pickTelegramId req = some (.int 0) →
      endpoint003 req store = (.badRequest "telegramId_required", store))
    ∧ (∀ (body : JSVal) (store : Store000),
      (destructure000 body).telegramId = .num (.int 0) →
      (destructure000 body).solAddress = .str "" →
      endpoint000 body store = (.badRequest "Need telegramId or solAddress", store)) := by
  constructor
  · intro req store h
    simp only [endpoint003, h]
    rfl
  · intro body store h1 h2
    simp only [endpoint000, h1, h2]
    rfl

/-- Witness for C10: a query-string id of 0 and a body with telegramId 0 and
empty solAddress are both rejected without a write. -/
theorem C10_witness :
    endpoint003 ⟨.obj [], some "0", none⟩ [] = (.badRequest "telegramId_required", [])
    ∧ endpoint000 (.obj [("telegramId", .num (.int 0)), ("solAddress", .str "")]) []
        = (.badRequest "Need telegramId or solAddress", []) :=
  ⟨C10_zero_identity.1 _ _ rfl, C10_zero_identity.2 _ _ rfl rfl⟩

end Metaville
